import Mathlib

/-!
Verification of the streaming chat bridge of the claudebot backend.

The embedding below follows the source files:

* `src/backend/claude_service.py` — `stream_chat`, the Agent Session Client:
  it folds the upstream SDK message sequence into a list of agent events
  (`thinking` / `text` / `done`), suppressing text deltas inside tool spans.
* `src/backend/main.py` — the `chat` endpoint: `run_in_thread` (the Bridge
  Executor, which enqueues every produced event onto a thread-safe queue and,
  in a `finally` block, a `None` sentinel), and `generate` (the Event Stream
  Publisher / Turn Finalizer, which drains the queue with a 600-second idle
  read timeout, emits SSE frames, awaits the worker future, emits the
  terminal done frame and then persists the transcript and resume token).

Machine-level aspects (wall-clock timestamps, JSON text, the SSE byte
framing) are modelled structurally: frames are a tagged type, queue items
carry an abstract arrival time in whole time-units, and Python exceptions
are split into `RuntimeError` (the only class the bridge catches) and every
other class.
-/

namespace ClaudeBot

/-- An event yielded by `stream_chat` (`claude_service.py`): one of the
tuples `("thinking", chunk)`, `("text", chunk)`, `("done", session_id)`. -/
inductive AgentEvent
  | thinking (text : String)
  | text (text : String)
  | done (sessionId : Option String)
deriving DecidableEq, Repr

/-- Whether an agent event is the completion (`done`) event. -/
def AgentEvent.isDone : AgentEvent → Bool
  | .done _ => true
  | _ => false

/-- A server-push frame delivered to the HTTP client by `generate`
(`main.py`): either a `message` frame whose JSON payload has a `type`
(`thinking` or `text`) and a `content`, or the terminal `done` frame whose
JSON payload carries the final `session_id` (possibly null). -/
inductive Frame
  | message (ty : String) (content : String)
  | done (sessionId : Option String)
deriving DecidableEq, Repr

/-- Whether a frame is the terminal done frame. -/
def Frame.isDone : Frame → Bool
  | .done _ => true
  | .message _ _ => false

/-- Python exception classes as far as the bridge distinguishes them:
`run_in_thread` and `generate` catch exactly `RuntimeError`; every other
class is handled by no layer of the bridge. -/
inductive PyExc
  | runtimeError
  | other
deriving DecidableEq, Repr

/-- One execution of the producer (`stream_chat` driven by `_produce` inside
`run_in_thread` in `main.py`): the events it managed to enqueue, each with
its arrival time on the queue; the time at which the `finally` block enqueues
the `None` sentinel (which is also when the worker thread finishes); and the
exception, if any, with which the producer ended. -/
structure ProducerRun where
  events : List (Nat × AgentEvent)
  sentinelAt : Nat
  exc : Option PyExc
deriving DecidableEq, Repr

/-- The items `run_in_thread` enqueues onto `thread_queue`, in order: every
produced event (as `some`), then — from the `finally` block, on the normal
and on the exceptional path alike — the `None` sentinel. -/
def ProducerRun.channelItems (r : ProducerRun) : List (Nat × Option AgentEvent) :=
  r.events.map (fun te => (te.1, some te.2)) ++ [(r.sentinelAt, none)]

/-- The idle read timeout of the publisher: `thread_queue.get(timeout=600)`. -/
def idleTimeout : Nat := 600

/-- The loop-local state of `generate` while draining the queue:
`raw_response_chunks`, `final_session_id`, and the message frames yielded
so far. -/
structure PubState where
  chunks : List String
  finalSessionId : Option String
  frames : List Frame
deriving DecidableEq, Repr

/-- One iteration of the event dispatch in `generate` (`main.py`): a
`thinking` event with non-empty text yields a thinking frame; a `text` event
with non-empty text is appended to `raw_response_chunks` and yields a text
frame; a `done` event records its payload as `final_session_id` and yields
nothing. -/
def processEvent (st : PubState) (e : AgentEvent) : PubState :=
  match e with
  | .thinking t =>
      if t = "" then st
      else { st with frames := st.frames ++ [Frame.message "thinking" t] }
  | .text t =>
      if t = "" then st
      else { st with chunks := st.chunks ++ [t],
                     frames := st.frames ++ [Frame.message "text" t] }
  | .done sid => { st with finalSessionId := sid }

/-- Result of the publisher read loop: the state on exit, the time the loop
exited, the retrieval time of the most recent queue item (the start time if
none was ever retrieved), and whether the exit was caused by the sentinel
(as opposed to the `Empty` idle timeout). -/
structure DrainOut where
  st : PubState
  stopAt : Nat
  lastItemAt : Nat
  sawSentinel : Bool
deriving DecidableEq, Repr

/-- The `while True` read loop of `generate`: at current time `c` it blocks
on `thread_queue.get(timeout=600)`. The next queue item, arriving at time
`t`, is retrieved at time `max c t` provided `t ≤ c + 600`; otherwise
`Empty` fires at `c + 600` and the loop breaks. A retrieved `None` sentinel
breaks the loop; a retrieved event is dispatched through `processEvent`. -/
def drain : List (Nat × Option AgentEvent) → Nat → PubState → DrainOut
  | [], c, st => ⟨st, c + idleTimeout, c, false⟩
  | (t, x) :: rest, c, st =>
      if t ≤ c + idleTimeout then
        match x with
        | none => ⟨st, max c t, max c t, true⟩
        | some e => drain rest (max c t) (processEvent st e)
      else
        ⟨st, c + idleTimeout, c, false⟩

/-- Concatenation of a list of strings, as `"".join(raw_response_chunks)`. -/
def joinAll : List String → String
  | [] => ""
  | s :: rest => s ++ joinAll rest

/-- The observable outcome of one run of `generate` (`main.py`): the frames
actually delivered to the client, the exception (if any) escaping into the
HTTP transaction, the assistant message row written after the stream (if
any), the `claude_session_id` written to the session row (if any; the same
write also refreshes the row timestamp), and the time the stream ended. -/
structure GenResult where
  frames : List Frame
  raised : Option PyExc
  persisted : Option String
  sessionUpdate : Option String
  closedAt : Nat
deriving DecidableEq, Repr

/-- The whole of `generate` (`main.py`): drain the queue, then
`await future` — which completes once the worker thread finishes (at
`sentinelAt`) and re-raises any producer exception other than
`RuntimeError`, `RuntimeError` being swallowed by the two
`except RuntimeError` handlers. On a re-raise the stream aborts with the
frames yielded so far and nothing is persisted. Otherwise the terminal done
frame is yielded with `final_session_id`, the joined chunks are inserted as
an assistant message when non-empty, and the session row is updated when
`final_session_id` is truthy (a non-empty string). -/
def generate (r : ProducerRun) : GenResult :=
  let d := drain r.channelItems 0 ⟨[], none, []⟩
  let awaitedAt := max d.stopAt r.sentinelAt
  if r.exc = some PyExc.other then
    { frames := d.st.frames
      raised := some PyExc.other
      persisted := none
      sessionUpdate := none
      closedAt := awaitedAt }
  else
    let full := joinAll d.st.chunks
    { frames := d.st.frames ++ [Frame.done d.st.finalSessionId]
      raised := none
      persisted := if full = "" then none else some full
      sessionUpdate :=
        match d.st.finalSessionId with
        | some s => if s = "" then none else some s
        | none => none
      closedAt := awaitedAt }

/-- A producer run in which every enqueue happens promptly (at time 0), so
that the idle timeout never fires and timing is irrelevant. -/
def runOf (events : List AgentEvent) (exc : Option PyExc) : ProducerRun :=
  ⟨events.map (fun e => (0, e)), 0, exc⟩

/-- Effect of the turn finalizer on the stored resume token of the
conversation: the session row update, when it happens, overwrites the token;
otherwise the previously stored token stays. -/
def applyFinalize (tok0 : Option String) (upd : Option String) : Option String :=
  match upd with
  | some s => some s
  | none => tok0

/-- The SSE wire encoding used by `sse_format` in `main.py`. -/
def sseFormat (event : String) (data : String) : String :=
  "event: " ++ event ++ "\ndata: " ++ data ++ "\n\n"

/-! ### The Agent Session Client: `stream_chat` in `claude_service.py` -/

/-- A content block of an SDK `AssistantMessage`, as far as `stream_chat`
inspects it: a `ThinkingBlock` with its text, or any other block kind. -/
inductive Block
  | thinkingBlock (text : String)
  | otherBlock
deriving DecidableEq, Repr

/-- One message of the upstream SDK sequence consumed by `stream_chat`,
carrying exactly the fields the function reads. `system isInit sid` is a
`SystemMessage` (`isInit` when its subtype is `init`; `sid` is the value of
`message.data.get("session_id")`, folded with the falsy-`data` guard).
`blockStart isToolUse` is a `content_block_start` stream event;
`blockDelta isTextDelta text` a `content_block_delta`; `blockStop` a
`content_block_stop`; `otherStream` any other stream event. `assistant`
is an `AssistantMessage` with its content blocks, and `result sid` a
`ResultMessage` with its `session_id` attribute. -/
inductive UpMsg
  | system (isInit : Bool) (sid : Option String)
  | blockStart (isToolUse : Bool)
  | blockDelta (isTextDelta : Bool) (text : String)
  | blockStop
  | otherStream
  | assistant (content : List Block)
  | result (sid : Option String)
deriving DecidableEq, Repr

/-- Whether an upstream message is the `ResultMessage`. -/
def UpMsg.isResult : UpMsg → Bool
  | .result _ => true
  | _ => false

/-- Python `new or old` on optional strings: `new` wins exactly when it is
truthy, that is, a non-empty string. -/
def pyOr (newV oldV : Option String) : Option String :=
  match newV with
  | some s => if s = "" then oldV else some s
  | none => oldV

/-- The `thinking` events `stream_chat` yields for one `AssistantMessage`:
one per `ThinkingBlock`, in block order. -/
def thinkEvents (bs : List Block) : List AgentEvent :=
  bs.filterMap fun b =>
    match b with
    | .thinkingBlock t => some (AgentEvent.thinking t)
    | .otherBlock => none

/-- The loop body of `stream_chat` (`claude_service.py`), with its two state
variables `session_id` and `in_tool`. A `system init` message overwrites
`session_id`; a tool-use `content_block_start` sets `in_tool`; a
`text_delta` outside a tool span yields a `text` event; `content_block_stop`
clears `in_tool`; `ThinkingBlock`s of an `AssistantMessage` are yielded
unconditionally; a `ResultMessage` yields `done` (with its `session_id`
attribute if truthy, else the recorded one) and returns. When the upstream
sequence ends without a `ResultMessage`, the trailing
`yield ("done", session_id)` still terminates the event sequence. -/
def streamChatGo : List UpMsg → Option String → Bool → List AgentEvent
  | [], sid, _ => [AgentEvent.done sid]
  | m :: rest, sid, inTool =>
      match m with
      | .system isInit d => streamChatGo rest (if isInit then d else sid) inTool
      | .blockStart isTool => streamChatGo rest sid (inTool || isTool)
      | .blockDelta isText t =>
          if isText && !inTool then AgentEvent.text t :: streamChatGo rest sid inTool
          else streamChatGo rest sid inTool
      | .blockStop => streamChatGo rest sid false
      | .otherStream => streamChatGo rest sid inTool
      | .assistant bs => thinkEvents bs ++ streamChatGo rest sid inTool
      | .result rs => [AgentEvent.done (pyOr rs sid)]

/-- `stream_chat` as a function of the upstream message sequence: the state
starts with `session_id = None` and `in_tool = False`. -/
def streamChat (msgs : List UpMsg) : List AgentEvent :=
  streamChatGo msgs none false

/-! ### The chat endpoint up to producer start: `chat` in `main.py` -/

/-- The request data of one accepted-for-processing call of the `chat`
endpoint: the form field `message`, and the uploaded file, if any, as its
filename together with the text `extract_text_from_file` yields for it. -/
structure ChatRequest where
  message : String
  file : Option (String × String)
deriving DecidableEq, Repr

/-- The Python guard `if file and file.filename:` — a file counts as
attached when it is present with a truthy (non-empty) filename. -/
def fileAttached (req : ChatRequest) : Bool :=
  match req.file with
  | some (fn, _) => fn != ""
  | none => false

/-- Truthiness of `doc_text.strip()` in Python: the stripped string is
non-empty exactly when some character of the text is not whitespace. -/
def stripTruthy (s : String) : Bool :=
  s.data.any (fun c => !c.isWhitespace)

/-- The fixed marker appended to the stored user message when a file was
attached. -/
def attachedMarker : String := " (with attached document)"

/-- The expanded prompt built by `chat` when a document is attached: the
document content is inlined between fixed delimiter lines, followed by the
user question. -/
def expandedPrompt (fn doc message : String) : String :=
  "The user has attached a document (\"" ++ fn ++ "\"). " ++
    "Here is its content:\n\n--- Document content ---\n" ++ doc ++
    "\n--- End document ---\n\nUser question: " ++ message

/-- What the `chat` endpoint has decided by the time it starts the producer:
the content of the user message row it inserted, and the prompt text handed
to the producer. -/
structure ChatStarted where
  userMessagePersisted : String
  promptText : String
deriving DecidableEq, Repr

/-- The part of `chat` (`main.py`) between ownership check and producer
start. With an attached file whose extracted text is non-blank the prompt is
expanded with the document; a blank extraction is rejected with HTTP 400
before anything is written. Then the user message row is inserted, storing
the original message plus the attachment marker — never the expanded
prompt — and only then is the producer started. -/
def chatBegin (req : ChatRequest) : Except Nat ChatStarted :=
  match req.file with
  | some (fn, doc) =>
      if fn != "" then
        if stripTruthy doc then
          Except.ok ⟨req.message ++ attachedMarker, expandedPrompt fn doc req.message⟩
        else Except.error 400
      else Except.ok ⟨req.message, req.message⟩
  | none => Except.ok ⟨req.message, req.message⟩

/-- The endpoint end to end: the user message row written before the stream,
paired with the outcome of the stream for a given producer run. `none` when
the request was rejected before the producer started. -/
def fullChat (req : ChatRequest) (r : ProducerRun) : Option (String × GenResult) :=
  match chatBegin req with
  | .ok st => some (st.userMessagePersisted, generate r)
  | .error _ => none

/-! ### The call from `chat` into `stream_chat`

`main.py` opens the turn with
`stream_chat(prompt=prompt_text, claude_session_id=claude_session_id,
system_prompt=system_prompt)`, and `stream_chat_worker.py` uses the same
three keywords; but the signature of `stream_chat` in `claude_service.py`
declares only `prompt` and `claude_session_id`. Python binds keyword
arguments by name and raises `TypeError` for any keyword that is not a
declared parameter. -/

/-- The parameter names declared by `stream_chat` in `claude_service.py`. -/
def streamChatParams : List String := ["prompt", "claude_session_id"]

/-- The keyword arguments of the call in the `chat` endpoint (`main.py`). -/
def chatCallKwargs : List String := ["prompt", "claude_session_id", "system_prompt"]

/-- The keyword arguments of the call in `stream_chat_worker.py`. -/
def workerCallKwargs : List String := ["prompt", "claude_session_id", "system_prompt"]

/-- Python keyword binding: the call succeeds with the given keywords, or
raises `TypeError` at the first keyword that is not a declared parameter. -/
def bindKeywords (params kwargs : List String) : Except String (List String) :=
  match kwargs.find? (fun k => !params.contains k) with
  | some k => Except.error ("TypeError: unexpected keyword argument " ++ k)
  | none => Except.ok kwargs

/-! ### Observation helpers over event and frame sequences -/

/-- The chunk a single event contributes to `raw_response_chunks`. -/
def chunkOf : AgentEvent → Option String
  | .text t => if t = "" then none else some t
  | _ => none

/-- The chunks a sequence of events contributes to `raw_response_chunks`. -/
def chunksOf (events : List AgentEvent) : List String :=
  events.filterMap chunkOf

/-- The message frame a single event makes the publisher yield, if any. -/
def frameOf : AgentEvent → Option Frame
  | .thinking t => if t = "" then none else some (Frame.message "thinking" t)
  | .text t => if t = "" then none else some (Frame.message "text" t)
  | .done _ => none

/-- The message frames a sequence of events makes the publisher yield. -/
def msgFrames (events : List AgentEvent) : List Frame :=
  events.filterMap frameOf

/-- The payload of a `text` event. -/
def textPayload : AgentEvent → Option String
  | .text t => some t
  | _ => none

/-- The payloads of the `text` events of a sequence, in arrival order. -/
def textPayloads (events : List AgentEvent) : List String :=
  events.filterMap textPayload

/-- The payload of a `thinking` event. -/
def thinkingPayload : AgentEvent → Option String
  | .thinking t => some t
  | _ => none

/-- The payloads of the `thinking` events of a sequence, in order. -/
def thinkingPayloads (events : List AgentEvent) : List String :=
  events.filterMap thinkingPayload

/-- The transcript the spec prescribes for a turn: the concatenation of the
payloads of all `text` (TextDelta) events in arrival order — `thinking` and
`done` events contribute nothing. -/
def transcript (events : List AgentEvent) : String :=
  joinAll (textPayloads events)

/-- The value of `final_session_id` after dispatching a sequence of events
starting from `a`: each `done` event overwrites it with its payload. -/
def lastDoneFrom (a : Option String) : List AgentEvent → Option String
  | [] => a
  | .done s :: rest => lastDoneFrom s rest
  | _ :: rest => lastDoneFrom a rest

/-- Sequential dispatch of a list of events through `processEvent`. -/
def processAll : List AgentEvent → PubState → PubState
  | [], st => st
  | e :: es, st => processAll es (processEvent st e)

/-- The number of terminal done frames in a frame sequence. -/
def doneCount (fs : List Frame) : Nat :=
  (fs.filter Frame.isDone).length

/-! ### Spec-side definitions for the tool-span contract (section 4.1)

These two definitions are written from the words of the spec, not from the
source, to be compared with `streamChat`: a tool span is bracketed by a
tool-use `content_block_start` and the next `content_block_stop`, only free
text deltas outside tool spans are surfaced, and thinking blocks are
surfaced irrespective of the tool-span state. -/

/-- The text deltas of an upstream sequence that lie outside tool spans,
in order, given the current tool-span state. -/
def specFreeTexts : List UpMsg → Bool → List String
  | [], _ => []
  | .blockStart isTool :: rest, inTool => specFreeTexts rest (inTool || isTool)
  | .blockStop :: rest, _ => specFreeTexts rest false
  | .blockDelta isText t :: rest, inTool =>
      if isText && !inTool then t :: specFreeTexts rest inTool
      else specFreeTexts rest inTool
  | _ :: rest, inTool => specFreeTexts rest inTool

/-- The thinking texts carried by assistant-message blocks. -/
def thinkTexts (bs : List Block) : List String :=
  bs.filterMap fun b =>
    match b with
    | .thinkingBlock t => some t
    | .otherBlock => none

/-- Every thinking text of an upstream sequence, in order, independent of
any tool-span state. -/
def specThinkings : List UpMsg → List String
  | [] => []
  | .assistant bs :: rest => thinkTexts bs ++ specThinkings rest
  | _ :: rest => specThinkings rest

/-! ### Helper lemmas -/

theorem channelItems_runOf (events : List AgentEvent) (exc : Option PyExc) :
    (runOf events exc).channelItems =
      events.map (fun e => (0, some e)) ++ [(0, none)] := by
  simp [runOf, ProducerRun.channelItems, List.map_map, Function.comp]

theorem drain_runOf (events : List AgentEvent) (st : PubState) :
    drain (events.map (fun e => (0, some e)) ++ [(0, none)]) 0 st =
      ⟨processAll events st, 0, 0, true⟩ := by
  induction events generalizing st with
  | nil => simp [drain, idleTimeout, processAll]
  | cons e es ih => simp [drain, idleTimeout, processAll, ih]

theorem processEvent_finalSessionId (st : PubState) (e : AgentEvent)
    (h : e.isDone = false) :
    (processEvent st e).finalSessionId = st.finalSessionId := by
  cases e with
  | thinking t => by_cases ht : t = "" <;> simp [processEvent, ht]
  | text t => by_cases ht : t = "" <;> simp [processEvent, ht]
  | done s => simp [AgentEvent.isDone] at h

theorem processEvent_doneFrames (st : PubState) (e : AgentEvent) :
    (processEvent st e).frames.filter Frame.isDone =
      st.frames.filter Frame.isDone := by
  cases e with
  | thinking t =>
      by_cases ht : t = "" <;> simp [processEvent, ht, List.filter_append, Frame.isDone]
  | text t =>
      by_cases ht : t = "" <;> simp [processEvent, ht, List.filter_append, Frame.isDone]
  | done s => simp [processEvent]

theorem drain_doneFrames (items : List (Nat × Option AgentEvent)) (c : Nat)
    (st : PubState) :
    (drain items c st).st.frames.filter Frame.isDone =
      st.frames.filter Frame.isDone := by
  induction items generalizing c st with
  | nil => simp [drain]
  | cons p rest ih =>
      obtain ⟨t, x⟩ := p
      by_cases hle : t ≤ c + idleTimeout
      · cases x with
        | none => simp [drain, hle]
        | some e => simp [drain, hle, ih, processEvent_doneFrames]
      · simp [drain, hle]

theorem drain_final_noDone (items : List (Nat × Option AgentEvent)) (c : Nat)
    (st : PubState)
    (h : items.all (fun p =>
      match p.2 with
      | some e => !e.isDone
      | none => true) = true) :
    (drain items c st).st.finalSessionId = st.finalSessionId := by
  induction items generalizing c st with
  | nil => simp [drain]
  | cons p rest ih =>
      obtain ⟨t, x⟩ := p
      rw [List.all_cons] at h
      rcases Bool.and_eq_true_iff.mp h with ⟨h1, h2⟩
      by_cases hle : t ≤ c + idleTimeout
      · cases x with
        | none => simp [drain, hle]
        | some e =>
            simp only at h1
            rw [Bool.not_eq_true'] at h1
            simp [drain, hle, ih _ _ h2, processEvent_finalSessionId _ _ h1]
      · simp [drain, hle]

theorem drain_timeout (items : List (Nat × Option AgentEvent)) (c : Nat)
    (st : PubState) (h : (drain items c st).sawSentinel = false) :
    (drain items c st).stopAt = (drain items c st).lastItemAt + idleTimeout := by
  induction items generalizing c st with
  | nil => simp [drain]
  | cons p rest ih =>
      obtain ⟨t, x⟩ := p
      by_cases hle : t ≤ c + idleTimeout
      · cases x with
        | none => simp [drain, hle] at h
        | some e =>
            simp only [drain, hle, if_pos] at h ⊢
            exact ih _ _ h
      · simp [drain, hle]

theorem generate_closedAt (r : ProducerRun) :
    (generate r).closedAt =
      max (drain r.channelItems 0 ⟨[], none, []⟩).stopAt r.sentinelAt := by
  by_cases h : r.exc = some PyExc.other <;> simp [generate, h]

theorem processAll_eq (events : List AgentEvent) (st : PubState) :
    processAll events st =
      ⟨st.chunks ++ chunksOf events,
       lastDoneFrom st.finalSessionId events,
       st.frames ++ msgFrames events⟩ := by
  induction events generalizing st with
  | nil => simp [processAll, chunksOf, msgFrames, lastDoneFrom]
  | cons e es ih =>
      cases e with
      | thinking t =>
          by_cases ht : t = "" <;>
            simp [processAll, processEvent, ht, ih, chunksOf, msgFrames,
              lastDoneFrom, chunkOf, frameOf, List.filterMap_cons, List.append_assoc]
      | text t =>
          by_cases ht : t = "" <;>
            simp [processAll, processEvent, ht, ih, chunksOf, msgFrames,
              lastDoneFrom, chunkOf, frameOf, List.filterMap_cons, List.append_assoc]
      | done s =>
          simp [processAll, processEvent, ih, chunksOf, msgFrames,
            lastDoneFrom, chunkOf, frameOf, List.filterMap_cons]

theorem joinAll_chunksOf (events : List AgentEvent) :
    joinAll (chunksOf events) = transcript events := by
  unfold transcript
  induction events with
  | nil => simp [chunksOf, textPayloads]
  | cons e es ih =>
      cases e with
      | thinking t =>
          simpa [chunksOf, textPayloads, chunkOf, textPayload,
            List.filterMap_cons] using ih
      | text t =>
          simp only [chunksOf, textPayloads] at ih
          by_cases ht : t = "" <;>
            simp [chunksOf, textPayloads, chunkOf, textPayload,
              List.filterMap_cons, ht, joinAll, ih]
      | done s =>
          simpa [chunksOf, textPayloads, chunkOf, textPayload,
            List.filterMap_cons] using ih

theorem lastDoneFrom_append (a : Option String) (l1 l2 : List AgentEvent) :
    lastDoneFrom a (l1 ++ l2) = lastDoneFrom (lastDoneFrom a l1) l2 := by
  induction l1 generalizing a with
  | nil => simp [lastDoneFrom]
  | cons e es ih => cases e <;> simp [lastDoneFrom, ih]

theorem lastDoneFrom_noDone (a : Option String) (l : List AgentEvent)
    (h : l.all (fun e => !e.isDone) = true) :
    lastDoneFrom a l = a := by
  induction l generalizing a with
  | nil => simp [lastDoneFrom]
  | cons e es ih =>
      rw [List.all_cons] at h
      rcases Bool.and_eq_true_iff.mp h with ⟨h1, h2⟩
      cases e with
      | thinking t => simp [lastDoneFrom, ih _ h2]
      | text t => simp [lastDoneFrom, ih _ h2]
      | done s => simp [AgentEvent.isDone] at h1

theorem textPayloads_thinkEvents (bs : List Block) (l : List AgentEvent) :
    textPayloads (thinkEvents bs ++ l) = textPayloads l := by
  induction bs with
  | nil => simp [thinkEvents]
  | cons b rest ih =>
      cases b with
      | thinkingBlock t =>
          simpa [thinkEvents, textPayloads, textPayload, List.filterMap_cons] using ih
      | otherBlock =>
          simpa [thinkEvents, List.filterMap_cons] using ih

theorem thinkingPayloads_thinkEvents (bs : List Block) (l : List AgentEvent) :
    thinkingPayloads (thinkEvents bs ++ l) = thinkTexts bs ++ thinkingPayloads l := by
  induction bs with
  | nil => simp [thinkEvents, thinkTexts]
  | cons b rest ih =>
      cases b with
      | thinkingBlock t =>
          simpa [thinkEvents, thinkingPayloads, thinkingPayload, thinkTexts,
            List.filterMap_cons] using ih
      | otherBlock =>
          simpa [thinkEvents, thinkTexts, List.filterMap_cons] using ih

theorem streamChatGo_spec (tail : List UpMsg)
    (htail : tail = [] ∨ ∃ s, tail = [UpMsg.result s]) :
    ∀ (body : List UpMsg), body.all (fun m => !m.isResult) = true →
    ∀ (sid : Option String) (inTool : Bool),
      textPayloads (streamChatGo (body ++ tail) sid inTool) =
        specFreeTexts (body ++ tail) inTool ∧
      thinkingPayloads (streamChatGo (body ++ tail) sid inTool) =
        specThinkings (body ++ tail) := by
  intro body
  induction body with
  | nil =>
      intro _ sid inTool
      rcases htail with h | ⟨s, h⟩ <;> subst h <;>
        simp [streamChatGo, specFreeTexts, specThinkings, textPayloads,
          thinkingPayloads, textPayload, thinkingPayload]
  | cons m body ih =>
      intro hall sid inTool
      rw [List.all_cons] at hall
      rcases Bool.and_eq_true_iff.mp hall with ⟨h1, h2⟩
      cases m with
      | system isInit d =>
          simpa [streamChatGo, specFreeTexts, specThinkings] using
            ih h2 (if isInit then d else sid) inTool
      | blockStart isTool =>
          simpa [streamChatGo, specFreeTexts, specThinkings] using
            ih h2 sid (inTool || isTool)
      | blockDelta isText t =>
          obtain ⟨ihT, ihTh⟩ := ih h2 sid inTool
          simp only [textPayloads, thinkingPayloads] at ihT ihTh
          by_cases hc : (isText && !inTool) = true
          · simp [streamChatGo, specFreeTexts, specThinkings, hc, textPayloads,
              thinkingPayloads, textPayload, thinkingPayload,
              List.filterMap_cons, ihT, ihTh]
          · simp [streamChatGo, specFreeTexts, specThinkings, hc, textPayloads,
              thinkingPayloads, ihT, ihTh]
      | blockStop =>
          simpa [streamChatGo, specFreeTexts, specThinkings] using ih h2 sid false
      | otherStream =>
          simpa [streamChatGo, specFreeTexts, specThinkings] using ih h2 sid inTool
      | assistant bs =>
          obtain ⟨ihT, ihTh⟩ := ih h2 sid inTool
          constructor
          · simp [streamChatGo, specFreeTexts, textPayloads_thinkEvents, ihT]
          · simp [streamChatGo, specThinkings, thinkingPayloads_thinkEvents, ihTh]
      | result s => simp [UpMsg.isResult] at h1

theorem generate_of_not_other (r : ProducerRun) (hexc : r.exc ≠ some PyExc.other) :
    generate r =
      { frames := (drain r.channelItems 0 ⟨[], none, []⟩).st.frames ++
          [Frame.done (drain r.channelItems 0 ⟨[], none, []⟩).st.finalSessionId]
        raised := none
        persisted :=
          if joinAll (drain r.channelItems 0 ⟨[], none, []⟩).st.chunks = "" then none
          else some (joinAll (drain r.channelItems 0 ⟨[], none, []⟩).st.chunks)
        sessionUpdate :=
          match (drain r.channelItems 0 ⟨[], none, []⟩).st.finalSessionId with
          | some s => if s = "" then none else some s
          | none => none
        closedAt := max (drain r.channelItems 0 ⟨[], none, []⟩).stopAt r.sentinelAt } := by
  simp only [generate]
  rw [if_neg hexc]

theorem generate_of_other (r : ProducerRun) (hexc : r.exc = some PyExc.other) :
    generate r =
      { frames := (drain r.channelItems 0 ⟨[], none, []⟩).st.frames
        raised := some PyExc.other
        persisted := none
        sessionUpdate := none
        closedAt := max (drain r.channelItems 0 ⟨[], none, []⟩).stopAt r.sentinelAt } := by
  simp only [generate]
  rw [if_pos hexc]

/-! ### Claim theorems -/

/-- C1 (amended): for every turn whose producer did not end with an
exception other than `RuntimeError` — that is, the turn ended via the
Sentinel, via the idle timeout, or via a `RuntimeError` producer failure —
the stream delivered to the client contains exactly one terminal done
frame, emitted as its last frame, and no exception reaches the HTTP
transaction. -/
theorem c1_exactly_one_terminal_frame (r : ProducerRun)
    (hexc : r.exc ≠ some PyExc.other) :
    doneCount (generate r).frames = 1 ∧
    (∃ sid, (generate r).frames.getLast? = some (Frame.done sid)) ∧
    (generate r).raised = none := by
  rw [generate_of_not_other r hexc]
  refine ⟨?_, ⟨_, List.getLast?_concat _⟩, rfl⟩
  show doneCount ((drain r.channelItems 0 ⟨[], none, []⟩).st.frames ++
    [Frame.done (drain r.channelItems 0 ⟨[], none, []⟩).st.finalSessionId]) = 1
  unfold doneCount
  rw [List.filter_append, drain_doneFrames]
  rfl

/-- C1 is false as stated: a producer failure with an exception other than
`RuntimeError` aborts the stream with zero terminal done frames. -/
theorem c1_counterexample :
    doneCount (generate (runOf [] (some PyExc.other))).frames = 0 ∧
    (generate (runOf [] (some PyExc.other))).raised = some PyExc.other := by
  decide

/-- Witness for C1 at end-to-end scenario 1 of the spec. -/
theorem c1_witness :
    ((runOf [AgentEvent.text "4", AgentEvent.done (some "sess-1")] none).exc ≠
      some PyExc.other) ∧
    doneCount (generate (runOf [AgentEvent.text "4",
      AgentEvent.done (some "sess-1")] none)).frames = 1 ∧
    (generate (runOf [AgentEvent.text "4", AgentEvent.done (some "sess-1")] none)).frames =
      [Frame.message "text" "4", Frame.done (some "sess-1")] :=
  ⟨by decide, (c1_exactly_one_terminal_frame _ (by decide)).1, by decide⟩

/-- C2: for every turn that does not abort with a non-`RuntimeError`
producer exception, the persisted assistant message is exactly the
concatenation, in arrival order, of the payloads of the `text` (TextDelta)
events — `thinking` events contribute nothing — and the row is written
precisely when that concatenation is non-empty. -/
theorem c2_persisted_is_transcript (events : List AgentEvent) (exc : Option PyExc)
    (hexc : exc ≠ some PyExc.other) :
    (generate (runOf events exc)).persisted =
      if transcript events = "" then none else some (transcript events) := by
  rw [generate_of_not_other _ hexc]
  show (if joinAll (drain (runOf events exc).channelItems 0 ⟨[], none, []⟩).st.chunks = ""
    then none
    else some (joinAll (drain (runOf events exc).channelItems 0 ⟨[], none, []⟩).st.chunks)) = _
  rw [channelItems_runOf, drain_runOf, processAll_eq]
  simp [joinAll_chunksOf]

/-- Witness for C2 at end-to-end scenario 2 of the spec. -/
theorem c2_witness :
    ((none : Option PyExc) ≠ some PyExc.other) ∧
    (generate (runOf [AgentEvent.thinking "pondering", AgentEvent.text "Hi",
      AgentEvent.text " there", AgentEvent.done none] none)).persisted =
      some "Hi there" := by
  refine ⟨by decide, ?_⟩
  have h := c2_persisted_is_transcript [AgentEvent.thinking "pondering",
    AgentEvent.text "Hi", AgentEvent.text " there", AgentEvent.done none] none (by decide)
  rw [h]
  decide

/-- C3 is false as stated: at this concrete turn the producer raises a
non-`RuntimeError` exception after emitting one text delta; the exception
escapes into the HTTP transaction, no terminal done frame is delivered,
and even the already accumulated transcript "Par" is not persisted. -/
theorem c3_counterexample :
    (generate (runOf [AgentEvent.text "Par"] (some PyExc.other))).raised =
      some PyExc.other ∧
    doneCount (generate (runOf [AgentEvent.text "Par"] (some PyExc.other))).frames = 0 ∧
    (generate (runOf [AgentEvent.text "Par"] (some PyExc.other))).persisted = none := by
  decide

/-- C3 (amended): when the producer fails mid-stream with a `RuntimeError` —
the one exception class both `run_in_thread` and `generate` catch — the
exception is contained at the bridge and never reaches the HTTP
transaction, the client still receives the terminal done frame as the last
frame, and whatever transcript had accumulated before the failure is
persisted when non-empty. Any other exception class propagates
(see the counterexample). -/
theorem c3_runtimeError_contained (events : List AgentEvent) :
    (generate (runOf events (some PyExc.runtimeError))).raised = none ∧
    (∃ sid, (generate (runOf events (some PyExc.runtimeError))).frames.getLast? =
      some (Frame.done sid)) ∧
    (generate (runOf events (some PyExc.runtimeError))).persisted =
      (if transcript events = "" then none else some (transcript events)) := by
  have hexc : (runOf events (some PyExc.runtimeError)).exc ≠ some PyExc.other := by
    intro hcontra
    simp [runOf] at hcontra
  rw [generate_of_not_other _ hexc]
  refine ⟨rfl, ⟨_, List.getLast?_concat _⟩, ?_⟩
  show (if joinAll (drain (runOf events (some PyExc.runtimeError)).channelItems 0
      ⟨[], none, []⟩).st.chunks = "" then none
    else some (joinAll (drain (runOf events (some PyExc.runtimeError)).channelItems 0
      ⟨[], none, []⟩).st.chunks)) = _
  rw [channelItems_runOf, drain_runOf, processAll_eq]
  simp [joinAll_chunksOf]

/-- C4: the Bridge Executor enqueues the sentinel exactly once per turn, as
the last channel item, distinct by construction from every real event, and
the enqueued sequence is the same whatever exception (if any) ended the
producer, because the enqueue sits in the `finally` block of `_produce`. -/
theorem c4_sentinel_exactly_once (r : ProducerRun) :
    (r.channelItems.filter (fun it => it.2.isNone)).length = 1 ∧
    r.channelItems.getLast? = some (r.sentinelAt, none) ∧
    (∀ exc, (ProducerRun.mk r.events r.sentinelAt exc).channelItems = r.channelItems) := by
  refine ⟨?_, ?_, fun exc => rfl⟩
  · unfold ProducerRun.channelItems
    rw [List.filter_append]
    have h : (r.events.map (fun te => (te.1, some te.2))).filter
        (fun it => it.2.isNone) = [] := by
      induction r.events with
      | nil => rfl
      | cons te rest ih => simpa [List.filter_cons] using ih
    rw [h]
    rfl
  · unfold ProducerRun.channelItems
    exact List.getLast?_concat _

/-- C5 is contradicted by the code: the `chat` endpoint (and likewise
`stream_chat_worker.py`) opens the turn passing the instruction preamble as
keyword argument `system_prompt`, but the signature of `stream_chat` in
`claude_service.py` declares only `prompt` and `claude_session_id`, so
Python keyword binding raises `TypeError` at the call and the preamble never
reaches the Agent Session Client. -/
theorem c5_preamble_keyword_rejected :
    bindKeywords streamChatParams chatCallKwargs =
      Except.error "TypeError: unexpected keyword argument system_prompt" ∧
    bindKeywords streamChatParams workerCallKwargs =
      Except.error "TypeError: unexpected keyword argument system_prompt" ∧
    "system_prompt" ∈ chatCallKwargs ∧ "system_prompt" ∉ streamChatParams :=
  ⟨rfl, rfl, by decide, by decide⟩

/-- C6: if the producer emitted a `done` event carrying a token (a
non-empty string), no later `done` event follows it, and the turn did not
abort with a non-`RuntimeError` exception, then finalization writes exactly
that token to the session row (the same write refreshes the row
timestamp) — whatever resume token `tok0` the turn started from. -/
theorem c6_done_token_supersedes (tok0 : Option String) (pre post : List AgentEvent)
    (s : String) (exc : Option PyExc) (hs : s ≠ "")
    (hpost : post.all (fun e => !e.isDone) = true)
    (hexc : exc ≠ some PyExc.other) :
    (generate (runOf (pre ++ AgentEvent.done (some s) :: post) exc)).sessionUpdate =
      some s ∧
    applyFinalize tok0
      (generate (runOf (pre ++ AgentEvent.done (some s) :: post) exc)).sessionUpdate =
      some s := by
  have hfin : (drain (runOf (pre ++ AgentEvent.done (some s) :: post) exc).channelItems 0
      ⟨[], none, []⟩).st.finalSessionId = some s := by
    rw [channelItems_runOf, drain_runOf, processAll_eq]
    show lastDoneFrom (PubState.mk [] none []).finalSessionId
      (pre ++ AgentEvent.done (some s) :: post) = some s
    rw [lastDoneFrom_append]
    show lastDoneFrom (some s) post = some s
    exact lastDoneFrom_noDone _ _ hpost
  have hupd : (generate (runOf (pre ++ AgentEvent.done (some s) :: post)
      exc)).sessionUpdate = some s := by
    rw [generate_of_not_other _ hexc]
    show (match (drain (runOf (pre ++ AgentEvent.done (some s) :: post) exc).channelItems 0
        ⟨[], none, []⟩).st.finalSessionId with
      | some s => if s = "" then none else some s
      | none => none) = some s
    rw [hfin]
    simp [hs]
  exact ⟨hupd, by rw [hupd]; rfl⟩

/-- Witness for C6: a turn started with stored token "old-token" whose
producer yields a text delta and then `done` with token "sess-1". -/
theorem c6_witness :
    ("sess-1" ≠ "") ∧
    (generate (runOf ([AgentEvent.text "4"] ++
      AgentEvent.done (some "sess-1") :: []) none)).sessionUpdate = some "sess-1" ∧
    applyFinalize (some "old-token")
      (generate (runOf ([AgentEvent.text "4"] ++
        AgentEvent.done (some "sess-1") :: []) none)).sessionUpdate = some "sess-1" := by
  have h := c6_done_token_supersedes (some "old-token") [AgentEvent.text "4"] []
    "sess-1" none (by decide) (by decide) (by decide)
  exact ⟨by decide, h.1, h.2⟩

/-- C7: if the producer never emitted a `done` event and the turn did not
abort with a non-`RuntimeError` exception, the terminal frame carries a
null session id and finalization leaves the previously stored resume token
unmodified. -/
theorem c7_no_done_null_session (tok0 : Option String) (r : ProducerRun)
    (hnd : r.events.all (fun te => !te.2.isDone) = true)
    (hexc : r.exc ≠ some PyExc.other) :
    (generate r).frames.getLast? = some (Frame.done none) ∧
    (generate r).sessionUpdate = none ∧
    applyFinalize tok0 (generate r).sessionUpdate = tok0 := by
  have hfin : (drain r.channelItems 0 ⟨[], none, []⟩).st.finalSessionId = none := by
    apply drain_final_noDone
    unfold ProducerRun.channelItems
    rw [List.all_append]
    refine Bool.and_eq_true_iff.mpr ⟨?_, by rfl⟩
    revert hnd
    induction r.events with
    | nil => intro _; rfl
    | cons te rest ih =>
        intro hnd
        rw [List.all_cons] at hnd
        rcases Bool.and_eq_true_iff.mp hnd with ⟨h1, h2⟩
        rw [List.map_cons, List.all_cons]
        exact Bool.and_eq_true_iff.mpr ⟨h1, ih h2⟩
  have hupd : (generate r).sessionUpdate = none := by
    rw [generate_of_not_other _ hexc]
    show (match (drain r.channelItems 0 ⟨[], none, []⟩).st.finalSessionId with
      | some s => if s = "" then none else some s
      | none => none) = none
    rw [hfin]
  refine ⟨?_, hupd, by rw [hupd]; rfl⟩
  rw [generate_of_not_other _ hexc]
  show ((drain r.channelItems 0 ⟨[], none, []⟩).st.frames ++
    [Frame.done (drain r.channelItems 0 ⟨[], none, []⟩).st.finalSessionId]).getLast? =
    some (Frame.done none)
  rw [hfin]
  exact List.getLast?_concat _

/-- Witness for C7: a producer that yields thinking and text but fails with
a `RuntimeError` before any `done` event; the turn started with stored
token "keep-me". -/
theorem c7_witness :
    ((runOf [AgentEvent.thinking "p", AgentEvent.text "Hi"]
      (some PyExc.runtimeError)).events.all (fun te => !te.2.isDone) = true) ∧
    (generate (runOf [AgentEvent.thinking "p", AgentEvent.text "Hi"]
      (some PyExc.runtimeError))).frames.getLast? = some (Frame.done none) ∧
    applyFinalize (some "keep-me")
      (generate (runOf [AgentEvent.thinking "p", AgentEvent.text "Hi"]
        (some PyExc.runtimeError))).sessionUpdate = some "keep-me" := by
  have h := c7_no_done_null_session (some "keep-me")
    (runOf [AgentEvent.thinking "p", AgentEvent.text "Hi"] (some PyExc.runtimeError))
    (by decide) (by decide)
  exact ⟨by decide, h.1, h.2.2⟩

/-- C8: for every upstream sequence whose `ResultMessage`, if present, is
its last message, the Agent Session Client surfaces as `text` events exactly
the text deltas lying outside tool spans (none from inside a tool-use span,
per the spec-side `specFreeTexts`), and surfaces every thinking block
irrespective of the tool-span state (per the spec-side `specThinkings`). -/
theorem c8_tool_span_filter (body tail : List UpMsg)
    (hbody : body.all (fun m => !m.isResult) = true)
    (htail : tail = [] ∨ ∃ s, tail = [UpMsg.result s]) :
    textPayloads (streamChat (body ++ tail)) = specFreeTexts (body ++ tail) false ∧
    thinkingPayloads (streamChat (body ++ tail)) = specThinkings (body ++ tail) :=
  streamChatGo_spec tail htail body hbody none false

/-- Witness for C8: a tool span hides the delta "secret", the free delta
"Hi" and the thinking block "hmm" are surfaced, and the upstream ends with
a `ResultMessage`. -/
theorem c8_witness :
    (([UpMsg.blockStart true, UpMsg.blockDelta true "secret", UpMsg.blockStop,
      UpMsg.blockDelta true "Hi",
      UpMsg.assistant [Block.thinkingBlock "hmm"]] : List UpMsg).all
        (fun m => !m.isResult) = true) ∧
    textPayloads (streamChat ([UpMsg.blockStart true, UpMsg.blockDelta true "secret",
      UpMsg.blockStop, UpMsg.blockDelta true "Hi",
      UpMsg.assistant [Block.thinkingBlock "hmm"]] ++
      [UpMsg.result (some "sess")])) = ["Hi"] ∧
    thinkingPayloads (streamChat ([UpMsg.blockStart true, UpMsg.blockDelta true "secret",
      UpMsg.blockStop, UpMsg.blockDelta true "Hi",
      UpMsg.assistant [Block.thinkingBlock "hmm"]] ++
      [UpMsg.result (some "sess")])) = ["hmm"] := by
  have h := c8_tool_span_filter
    [UpMsg.blockStart true, UpMsg.blockDelta true "secret", UpMsg.blockStop,
     UpMsg.blockDelta true "Hi", UpMsg.assistant [Block.thinkingBlock "hmm"]]
    [UpMsg.result (some "sess")] (by decide) (Or.inr ⟨"sess", rfl⟩)
  exact ⟨by decide, by rw [h.1]; decide, by rw [h.2]; decide⟩

/-- C9 is false as stated: with no channel item ever arriving and the worker
finishing only at time 10000, the publisher stops reading at time 600 but
the stream closes (with its terminal frame) only at time 10000 — far more
than one timeout interval after turn start — because `generate` awaits the
worker future before yielding the done frame. -/
theorem c9_counterexample :
    ¬ ((generate (⟨[], 10000, none⟩ : ProducerRun)).closedAt ≤ 0 + idleTimeout) ∧
    (generate (⟨[], 10000, none⟩ : ProducerRun)).frames = [Frame.done none] ∧
    (generate (⟨[], 10000, none⟩ : ProducerRun)).closedAt = 10000 := by
  decide

/-- C9 (amended): when the idle timeout fires (the sentinel was not
observed), the publisher stops reading exactly one timeout interval after
the last received item (or after turn start if none arrived), but the
stream closes with its terminal frame only at the later of that stop time
and the worker completion time: the worker is never cancelled and the
publisher awaits it before emitting the terminal frame. -/
theorem c9_idle_timeout_stops_reading (r : ProducerRun)
    (h : (drain r.channelItems 0 ⟨[], none, []⟩).sawSentinel = false) :
    (drain r.channelItems 0 ⟨[], none, []⟩).stopAt =
      (drain r.channelItems 0 ⟨[], none, []⟩).lastItemAt + idleTimeout ∧
    (generate r).closedAt =
      max (drain r.channelItems 0 ⟨[], none, []⟩).stopAt r.sentinelAt :=
  ⟨drain_timeout _ _ _ h, generate_closedAt r⟩

/-- Witness for C9: one item arrives at time 0, the worker only finishes at
time 2000, so the read loop times out at 600 and the stream closes at
2000. -/
theorem c9_witness :
    ((drain (⟨[(0, AgentEvent.text "a")], 2000, none⟩ : ProducerRun).channelItems 0
      ⟨[], none, []⟩).sawSentinel = false) ∧
    ((drain (⟨[(0, AgentEvent.text "a")], 2000, none⟩ : ProducerRun).channelItems 0
      ⟨[], none, []⟩).stopAt =
      (drain (⟨[(0, AgentEvent.text "a")], 2000, none⟩ : ProducerRun).channelItems 0
        ⟨[], none, []⟩).lastItemAt + idleTimeout) ∧
    (generate (⟨[(0, AgentEvent.text "a")], 2000, none⟩ : ProducerRun)).closedAt = 2000 := by
  have h := c9_idle_timeout_stops_reading
    (⟨[(0, AgentEvent.text "a")], 2000, none⟩ : ProducerRun) (by decide)
  refine ⟨by decide, h.1, ?_⟩
  rw [h.2]
  decide

/-- C10: for every accepted chat request the persisted user row stores the
original message text, with the fixed attachment marker appended exactly
when a file was attached — never the expanded prompt that inlines the
document body — and the stored text is fixed before the producer starts, so
it is the same whatever the later producer run does (failures and timeouts
included). -/
theorem c10_user_message_verbatim (req : ChatRequest) (st : ChatStarted)
    (h : chatBegin req = Except.ok st) :
    st.userMessagePersisted =
      req.message ++ (if fileAttached req then attachedMarker else "") ∧
    (fileAttached req = true → st.userMessagePersisted ≠ st.promptText) ∧
    (∀ r : ProducerRun, fullChat req r = some (st.userMessagePersisted, generate r)) := by
  have h3 : ∀ r : ProducerRun, fullChat req r = some (st.userMessagePersisted, generate r) := by
    intro r
    unfold fullChat
    rw [h]
  obtain ⟨m, file⟩ := req
  cases file with
  | none =>
      simp only [chatBegin] at h
      injection h with h1
      subst h1
      refine ⟨?_, ?_, h3⟩
      · show m = m ++ (if fileAttached ⟨m, none⟩ then attachedMarker else "")
        simp [fileAttached]
      · intro hatt
        simp [fileAttached] at hatt
  | some p =>
      obtain ⟨fn, doc⟩ := p
      by_cases hfn : fn = ""
      · simp only [chatBegin, hfn, bne_self_eq_false, Bool.false_eq_true, if_false] at h
        injection h with h1
        subst h1
        refine ⟨?_, ?_, h3⟩
        · show m = m ++ (if fileAttached ⟨m, some (fn, doc)⟩ then attachedMarker else "")
          simp [fileAttached, hfn]
        · intro hatt
          simp [fileAttached, hfn] at hatt
      · have hb : (fn != "") = true := bne_iff_ne.mpr hfn
        by_cases hdoc : stripTruthy doc = true
        · simp only [chatBegin, hb, hdoc, if_true] at h
          injection h with h1
          subst h1
          refine ⟨?_, ?_, h3⟩
          · show m ++ attachedMarker =
              m ++ (if fileAttached ⟨m, some (fn, doc)⟩ then attachedMarker else "")
            simp [fileAttached, hb]
          · intro _ heq
            have hlen := congrArg String.length heq
            simp only [expandedPrompt, attachedMarker, String.length_append] at hlen
            have l1 : ("The user has attached a document (\"" : String).length = 35 := rfl
            have l2 : ("\"). " : String).length = 4 := rfl
            have l3 : ("Here is its content:\n\n--- Document content ---\n" : String).length =
              47 := rfl
            have l4 : ("\n--- End document ---\n\nUser question: " : String).length = 38 := rfl
            have l5 : (" (with attached document)" : String).length = 25 := rfl
            rw [l1, l2, l3, l4, l5] at hlen
            omega
        · simp only [chatBegin, hb, hdoc, if_true, Bool.false_eq_true, if_false] at h
          exact Except.noConfusion h

/-- Witness for C10: a request with message "What is this?" and an attached
text file; the stored user row is the message plus the marker, and differs
from the expanded prompt handed to the producer. -/
theorem c10_witness :
    (chatBegin ⟨"What is this?", some ("notes.txt", "Plants breathe.")⟩ =
      Except.ok ⟨"What is this?" ++ attachedMarker,
        expandedPrompt "notes.txt" "Plants breathe." "What is this?"⟩) ∧
    ("What is this?" ++ attachedMarker ≠
      expandedPrompt "notes.txt" "Plants breathe." "What is this?") := by
  refine ⟨rfl, ?_⟩
  exact (c10_user_message_verbatim
    ⟨"What is this?", some ("notes.txt", "Plants breathe.")⟩
    ⟨"What is this?" ++ attachedMarker,
      expandedPrompt "notes.txt" "Plants breathe." "What is this?"⟩ rfl).2.1 rfl

end ClaudeBot
